import Mathlib

/-!
Shallow embedding of the shttpfs3 server (src/shttpfs3/server.py) and the
parts of its environment the endpoint handlers observe.

Modelling conventions:
* Python `str` values are Lean `String`; Python `bytes` values (always the
  utf-8 encoding of some string in this code base) are the wrapper `Bytes`.
  Python `==` between a `str` and a `bytes` operand is always `False`; this
  is modelled by `pyStrEqBytes`.
* SQLite values bound from Python keep their storage class: a `str`
  parameter is stored/compared as TEXT, a `bytes` parameter as BLOB.  SQLite
  never equates a TEXT value with a BLOB value, whatever the column's
  declared affinity; `SQLVal` and `sqlEq` model this.
* The filesystem contents of `user_file` are modelled by
  `Option UserFileContent`: `none` is an absent file (opening it raises
  IOError), `UserFileContent.empty` an empty file, `UserFileContent.malformed`
  content on which `json.loads` raises ValueError, and
  `UserFileContent.record` a parsed `{session_token, expires}` record.
* Handlers run inside `lock_access`, which takes a process-level flock and
  maps both flock contention and an IOError escaping the callback to
  `fail lock_fail_msg`.  The flock outcome is the explicit `flock_ok`
  argument of each mutating handler.
-/

namespace Shttpfs

/-- Normative message strings from server.py. -/
def lock_fail_msg : String := "Could not acquire exclusive lock"

def no_such_repo_msg : String := "The requested repository does not exist"

def user_auth_fail_msg : String := "Could not authenticate user"

def conflict_msg : String := "Please resolve conflicts"

def need_to_update_msg : String := "Please update to latest revision"

def no_active_commit_msg : String := "A commit must be started before attempting this operation."

/-- `extend_session_duration = (60 * 60) * 2` seconds. -/
def extend_session_duration : Int := (60 * 60) * 2

/-- Python `bytes` that are the utf-8 encoding of `data`. -/
structure Bytes where
  data : String
deriving DecidableEq, Repr

/-- `str.encode('utf8')`. -/
def encodeUtf8 (s : String) : Bytes := ⟨s⟩

/-- `bytes.decode('utf8')`. -/
def Bytes.decodeUtf8 (b : Bytes) : String := b.data

/-- Python `==` with a `str` operand on the left and a `bytes` operand on
the right: always `False`, whatever the contents. -/
def pyStrEqBytes (_s : String) (_b : Bytes) : Bool := false

/-- A SQLite value with its storage class: `str` parameters are bound as
TEXT, `bytes` parameters as BLOB. -/
inductive SQLVal where
  | text (s : String)
  | blob (b : String)
deriving DecidableEq, Repr

/-- SQLite equality: values of different storage classes are never equal;
within a class, contents are compared. -/
def sqlEq : SQLVal → SQLVal → Bool
  | SQLVal.text a, SQLVal.text b => a == b
  | SQLVal.blob a, SQLVal.blob b => a == b
  | _, _ => false

/-- A parsed user-lock record `{session_token, expires}` as written by
`update_user_lock` (`session_token` is a JSON string, `expires` an int). -/
structure UserLockRecord where
  session_token : String
  expires : Int
deriving DecidableEq, Repr

/-- What `user_file` can hold when it exists. -/
inductive UserFileContent where
  | empty
  | malformed
  | record (r : UserLockRecord)
deriving DecidableEq, Repr

/-- A row of the `session_tokens` relation
`(expires int, token text, ip text, username text)`.  The `token` column
keeps the storage class of the Python value bound at insertion. -/
structure SessionRow where
  expires : Int
  token : SQLVal
  ip : String
  username : String
deriving DecidableEq, Repr

/-- Server configuration: the known repository names, and
`config['users'][u]['uses_repositories']` as a membership predicate. -/
structure Config where
  repositories : List String
  usesRepositories : String → String → Bool

/-- Modelled from the spec: the staging/commit state of `versioned_storage`
(shttpfs3/versioned_storage.py is not under src/; §3 "Staging state",
§4.3 commit state machine).  Manifests are modelled as lists of paths;
revision ids are opaque, generated fresh from a counter. -/
structure DataStore where
  head : String
  revCount : Nat
  headManifest : List String
  manifests : List (List String)
  active : Bool
  stagedPuts : List String
  stagedDeletes : List String
deriving DecidableEq, Repr

/-- Modelled from the spec: `get_head() → revision_id | "root"`. -/
def DataStore.get_head (ds : DataStore) : String := ds.head

/-- Modelled from the spec: `have_active_commit()` reports whether the
staging state is ACTIVE. -/
def DataStore.have_active_commit (ds : DataStore) : Bool := ds.active

/-- Modelled from the spec: `begin` creates an empty staging descriptor
(IDLE → ACTIVE). -/
def DataStore.begin (ds : DataStore) : DataStore :=
  { ds with active := true, stagedPuts := [], stagedDeletes := [] }

/-- Modelled from the spec: `rollback` discards the staging descriptor
(ACTIVE → IDLE). -/
def DataStore.rollback (ds : DataStore) : DataStore :=
  { ds with active := false, stagedPuts := [], stagedDeletes := [] }

/-- Modelled from the spec: revision ids are opaque strings; a fresh id per
commit is generated from the revision counter. -/
def newRevisionId (ds : DataStore) : String := "rev" ++ toString (ds.revCount + 1)

/-- Modelled from the spec: the new manifest is the base manifest with
staged deletes removed and staged puts applied (§4.3 `commit`). -/
def applyStaging (base puts deletes : List String) : List String :=
  puts ++ base.filter (fun p => !(deletes.contains p) && !(puts.contains p))

/-- Modelled from the spec: `commit(message, author)` publishes the staged
state as a new revision, advances head and returns the new revision id. -/
def DataStore.commit (ds : DataStore) (_message _author : String) : String × DataStore :=
  let newId := newRevisionId ds
  let newManifest := applyStaging ds.headManifest ds.stagedPuts ds.stagedDeletes
  (newId,
   { head := newId, revCount := ds.revCount + 1, headManifest := newManifest,
     manifests := newManifest :: ds.manifests, active := false,
     stagedPuts := [], stagedDeletes := [] })

/-- Modelled from the spec: `fs_put_from_file(tmp, {path})` records
`puts[path]` and clears `deletes[path]` (§4.3). -/
def DataStore.fs_put_from_file (ds : DataStore) (path : String) : DataStore :=
  { ds with stagedPuts := path :: ds.stagedPuts.filter (fun p => p != path),
            stagedDeletes := ds.stagedDeletes.filter (fun p => p != path) }

/-- The per-repository state an endpoint handler can read and write. -/
structure RepoState where
  dataStore : DataStore
  userFile : Option UserFileContent
  sessionTokens : List SessionRow
deriving Repr

/-- JSON values, as far as the handlers build them. -/
inductive JVal where
  | str (s : String)
  | arr (xs : List JVal)
  | obj (fields : List (String × JVal))

/-- A response body: raw bytes, or a dict serialized by `json.dumps`. -/
inductive Body where
  | raw (b : String)
  | jsonObj (fields : List (String × JVal))

/-- `Responce(headers, body)` as produced by `server_responce`. -/
structure Responce where
  headers : List (String × String)
  body : Body

/-- `fail(msg)`: headers `{'status': 'fail', 'msg': msg}`, empty body. -/
def fail (msg : String) : Responce :=
  ⟨[("status", "fail"), ("msg", msg)], Body.raw ""⟩

/-- `success(headers, data)`: header `status: ok` plus the passed headers,
and the passed data as body. -/
def success (headers : List (String × String)) (data : Body) : Responce :=
  ⟨("status", "ok") :: headers, data⟩

/-- `update_user_lock(path, token)`: the content atomically written to
`user_file` — empty when `token is None`, else
`{'session_token': token.decode('utf8'), 'expires': now + 30}`. -/
def update_user_lock (session_token : Option Bytes) (now : Int) : UserFileContent :=
  match session_token with
  | none => UserFileContent.empty
  | some t => UserFileContent.record ⟨t.decodeUtf8, now + 30⟩

/-- `can_aquire_user_lock(path, session_token)` with `session_token : bytes`.
Absent file → True; empty → True; `json.loads` ValueError → True;
`expires < now` → True; else the Python comparison
`res['session_token'] == session_token` compares a `str` with a `bytes`
value. -/
def can_aquire_user_lock (userFile : Option UserFileContent) (now : Int)
    (session_token : Bytes) : Bool :=
  match userFile with
  | none => true
  | some UserFileContent.empty => true
  | some UserFileContent.malformed => true
  | some (UserFileContent.record res) =>
    if res.expires < now then true
    else if pyStrEqBytes res.session_token session_token then true
    else false

/-- `varify_user_lock(path, session_token)`: empty or unparseable content →
False; else `res['session_token'].encode('utf8') == session_token and
now < res['expires']`.  An absent file raises IOError, which `lock_access`
turns into `fail lock_fail_msg`; since the handlers treat a False return
identically (`fail lock_fail_msg`, no state touched yet), the absent case
is modelled as False. -/
def varify_user_lock (userFile : Option UserFileContent) (now : Int)
    (session_token : Bytes) : Bool :=
  match userFile with
  | none => false
  | some UserFileContent.empty => false
  | some UserFileContent.malformed => false
  | some (UserFileContent.record res) =>
    encodeUtf8 res.session_token == session_token && decide (now < res.expires)

/-- `read_user_lock(path)`: None on absent file (IOError), empty content, or
unparseable content (ValueError); else the parsed record. -/
def read_user_lock (userFile : Option UserFileContent) : Option UserLockRecord :=
  match userFile with
  | none => none
  | some UserFileContent.empty => none
  | some UserFileContent.malformed => none
  | some (UserFileContent.record r) => some r

/-- The `session_tokens` garbage collection in `have_authenticated_user`:
with an active user-lock record, `delete from session_tokens where
expires < now and token != active_commit` (the bound `active_commit` is a
Python `str`, hence TEXT); without one, `delete ... where expires < now`. -/
def gcSessionTokens (table : List SessionRow) (now : Int)
    (active_commit : Option String) : List SessionRow :=
  match active_commit with
  | some t => table.filter (fun row => !(decide (row.expires < now) && !(sqlEq row.token (SQLVal.text t))))
  | none => table.filter (fun row => !(decide (row.expires < now)))

/-- `have_authenticated_user(client_ip, repository, session_token)` with
`session_token : bytes` (hence bound as BLOB in the queries).  Returns the
matching row (Python: the row dict) or `none` (Python: False), together
with the updated repository state. -/
def have_authenticated_user (cfg : Config) (client_ip repository : String)
    (session_token : Bytes) (now : Int) (st : RepoState) :
    Option SessionRow × RepoState :=
  if repository ∈ cfg.repositories then
    let active_commit := (read_user_lock st.userFile).map (fun r => r.session_token)
    let table := gcSessionTokens st.sessionTokens now active_commit
    let res := table.filter (fun row =>
      sqlEq row.token (SQLVal.blob session_token.data) && row.ip == client_ip)
    match res with
    | [] => (none, { st with sessionTokens := table })
    | r0 :: _ =>
      if cfg.usesRepositories r0.username repository then
        let table2 := table.map (fun row =>
          if sqlEq row.token (SQLVal.blob session_token.data) && row.ip == client_ip then
            { row with expires := now + extend_session_duration }
          else row)
        (some r0, { st with sessionTokens := table2 })
      else (none, { st with sessionTokens := table })
  else (none, st)

/-- `re.split(r'\\|/', s)` on the characters of `s` (empty segments kept). -/
def splitSlashesAux : List Char → List Char → List String
  | [], acc => [String.mk acc.reverse]
  | c :: rest, acc =>
    if c = '/' ∨ c = '\\' then String.mk acc.reverse :: splitSlashesAux rest []
    else splitSlashesAux rest (c :: acc)

def splitSlashes (s : String) : List String := splitSlashesAux s.toList []

/-- The push_file traversal check:
`any(True for item in re.split(r'\\|/', file_path) if item in ['..', '.'])`. -/
def hasTraversal (file_path : String) : Bool :=
  (splitSlashes file_path).any (fun item => item == ".." || item == ".")

/-- Endpoint `begin_auth`.  The issued token is random; it enters the model
as the argument `auth_token`.  The transient `tokens` relation, which only
this endpoint and `authenticate`'s new-session branch consult, is not
modelled. -/
def begin_auth (cfg : Config) (repository auth_token : String) (st : RepoState) :
    Responce × RepoState :=
  if repository ∈ cfg.repositories then
    (success [("auth_token", auth_token)] (Body.raw ""), st)
  else (fail no_such_repo_msg, st)

/-- The session-resume branch of endpoint `authenticate`: GC
`session_tokens` by expiry, then `select * where token = ? and ip = ?` with
the header string (TEXT) as the token parameter. -/
def authenticate_resume (cfg : Config) (client_ip repository session_token : String)
    (now : Int) (st : RepoState) : Responce × RepoState :=
  if repository ∈ cfg.repositories then
    let table := st.sessionTokens.filter (fun row => !(decide (row.expires < now)))
    let res := table.filter (fun row =>
      sqlEq row.token (SQLVal.text session_token) && row.ip == client_ip)
    let st1 := { st with sessionTokens := table }
    if res.isEmpty then (fail user_auth_fail_msg, st1)
    else (success [("session_token", session_token)] (Body.raw ""), st1)
  else (fail no_such_repo_msg, st)

/-- Endpoint `authenticate`: after the repository check, either the resume
branch (header `session_token` present) or the new-session branch.  The
new-session branch (Ed25519 verification against the external pysodium
library and the unmodelled `tokens` relation) is abstracted as the argument
`newSession`. -/
def authenticate (newSession : RepoState → Responce × RepoState) (cfg : Config)
    (client_ip repository : String) (session_token_hdr : Option String)
    (now : Int) (st : RepoState) : Responce × RepoState :=
  if repository ∈ cfg.repositories then
    match session_token_hdr with
    | some tok => authenticate_resume cfg client_ip repository tok now st
    | none => newSession st
  else (fail no_such_repo_msg, st)

/-- The request body read by `find_changed` (`request.get_json()`); its two
fields are consumed only on the non-root path. -/
structure FindChangedBody where
  client_changes : String
  conflict_resolutions : String

/-- Endpoint `find_changed`.  The non-root path calls
`get_changes_since` and `merge_client_and_server_changes`
(shttpfs3/versioned_storage.py and
shttpfs3/merge_client_and_server_changes.py are not under src/); that
branch is abstracted as the argument `nonRoot`. -/
def find_changed (nonRoot : FindChangedBody → String → DataStore → Responce)
    (cfg : Config) (client_ip repository : String) (session_token : Bytes)
    (previous_revision : String) (body : FindChangedBody) (now : Int)
    (st : RepoState) : Responce × RepoState :=
  match have_authenticated_user cfg client_ip repository session_token now st with
  | (none, st1) => (fail user_auth_fail_msg, st1)
  | (some _, st1) =>
    if st1.dataStore.get_head == "root" then
      (success [] (Body.jsonObj
        [("head", JVal.str "root"),
         ("sorted_changes", JVal.obj [("none", JVal.arr [])])]), st1)
    else (nonRoot body previous_revision st1.dataStore, st1)

/-- Endpoint `pull_file`.  The storage lookup and file serving
(`get_file_info_from_path`, versioned_storage.py not under src/) are
abstracted as `serve`. -/
def pull_file (serve : String → DataStore → Responce) (cfg : Config)
    (client_ip repository : String) (session_token : Bytes) (path : String)
    (now : Int) (st : RepoState) : Responce × RepoState :=
  match have_authenticated_user cfg client_ip repository session_token now st with
  | (none, st1) => (fail user_auth_fail_msg, st1)
  | (some _, st1) => (serve path st1.dataStore, st1)

/-- Endpoint `list_versions`; `get_commit_chain` abstracted as `serve`. -/
def list_versions (serve : DataStore → Responce) (cfg : Config)
    (client_ip repository : String) (session_token : Bytes) (now : Int)
    (st : RepoState) : Responce × RepoState :=
  match have_authenticated_user cfg client_ip repository session_token now st with
  | (none, st1) => (fail user_auth_fail_msg, st1)
  | (some _, st1) => (serve st1.dataStore, st1)

/-- Endpoint `list_changes`; `get_commit_changes` abstracted as `serve`. -/
def list_changes (serve : String → DataStore → Responce) (cfg : Config)
    (client_ip repository : String) (session_token : Bytes) (version_id : String)
    (now : Int) (st : RepoState) : Responce × RepoState :=
  match have_authenticated_user cfg client_ip repository session_token now st with
  | (none, st1) => (fail user_auth_fail_msg, st1)
  | (some _, st1) => (serve version_id st1.dataStore, st1)

/-- Endpoint `list_files`; `get_commit_files` abstracted as `serve`. -/
def list_files (serve : String → DataStore → Responce) (cfg : Config)
    (client_ip repository : String) (session_token : Bytes) (version_id : String)
    (now : Int) (st : RepoState) : Responce × RepoState :=
  match have_authenticated_user cfg client_ip repository session_token now st with
  | (none, st1) => (fail user_auth_fail_msg, st1)
  | (some _, st1) => (serve version_id st1.dataStore, st1)

/-- Endpoint `begin_commit`: auth, then under the flock — user lock
acquirable, head equals `previous_revision`, implicit rollback of a
dangling staging, `begin`, write the user lock, success. -/
def begin_commit (cfg : Config) (flock_ok : Bool) (client_ip repository : String)
    (session_token : Bytes) (previous_revision : String) (now : Int)
    (st : RepoState) : Responce × RepoState :=
  match have_authenticated_user cfg client_ip repository session_token now st with
  | (none, st1) => (fail user_auth_fail_msg, st1)
  | (some _, st1) =>
    if flock_ok then
      if can_aquire_user_lock st1.userFile now session_token then
        if st1.dataStore.get_head == previous_revision then
          let ds1 := if st1.dataStore.have_active_commit then st1.dataStore.rollback
                     else st1.dataStore
          (success [] (Body.raw ""),
           { st1 with dataStore := ds1.begin,
                      userFile := some (update_user_lock (some session_token) now) })
        else (fail need_to_update_msg, st1)
      else (fail lock_fail_msg, st1)
    else (fail lock_fail_msg, st1)

/-- Endpoint `push_file`: auth, then under the flock — verify the user
lock, require active staging, reject traversal paths with `fail('')`
before the body is stored, else store the blob, stage the put and refresh
the user lock. -/
def push_file (cfg : Config) (flock_ok : Bool) (client_ip repository : String)
    (session_token : Bytes) (path : String) (now : Int) (st : RepoState) :
    Responce × RepoState :=
  match have_authenticated_user cfg client_ip repository session_token now st with
  | (none, st1) => (fail user_auth_fail_msg, st1)
  | (some _, st1) =>
    if flock_ok then
      if varify_user_lock st1.userFile now session_token then
        if st1.dataStore.have_active_commit then
          if hasTraversal path then (fail "", st1)
          else
            (success [] (Body.raw ""),
             { st1 with dataStore := st1.dataStore.fs_put_from_file path,
                        userFile := some (update_user_lock (some session_token) now) })
        else (fail no_active_commit_msg, st1)
      else (fail lock_fail_msg, st1)
    else (fail lock_fail_msg, st1)

/-- The `for fle in files: data_store.fs_delete(fle)` loop of
`delete_files`: `fs_delete` mutates the store in place, so an exception
(modelled as `none`) leaves the deletions already staged in place and
stops the loop.  Returns the state reached and whether the whole batch
succeeded. -/
def stageDeletes (fs_delete : DataStore → String → Option DataStore) :
    DataStore → List String → DataStore × Bool
  | ds, [] => (ds, true)
  | ds, f :: rest =>
    match fs_delete ds f with
    | none => (ds, false)
    | some ds1 => stageDeletes fs_delete ds1 rest

/-- Endpoint `delete_files`: auth, then under the flock — verify the user
lock, and inside a `try`: require active staging, stage each deletion in
turn, refresh the user lock and succeed; any exception in the loop is
answered with `fail('')`, keeping the state the loop had reached.
`fs_delete` itself (versioned_storage.py not under src/) is the abstract
argument. -/
def delete_files (fs_delete : DataStore → String → Option DataStore) (cfg : Config)
    (flock_ok : Bool) (client_ip repository : String) (session_token : Bytes)
    (files : List String) (now : Int) (st : RepoState) : Responce × RepoState :=
  match have_authenticated_user cfg client_ip repository session_token now st with
  | (none, st1) => (fail user_auth_fail_msg, st1)
  | (some _, st1) =>
    if flock_ok then
      if varify_user_lock st1.userFile now session_token then
        if st1.dataStore.have_active_commit then
          match stageDeletes fs_delete st1.dataStore files with
          | (ds1, true) =>
            (success [] (Body.raw ""),
             { st1 with dataStore := ds1,
                        userFile := some (update_user_lock (some session_token) now) })
          | (ds1, false) => (fail "", { st1 with dataStore := ds1 })
        else (fail no_active_commit_msg, st1)
      else (fail lock_fail_msg, st1)
    else (fail lock_fail_msg, st1)

/-- Endpoint `commit`: auth, then under the flock — verify the user lock,
require active staging; mode header `'commit'` commits and puts
`{'head': new_head}` into `success(result)` (the HEADERS argument of
`success`, with an empty body); any other mode rolls back with
`success({})`; both then clear the user lock
(`update_user_lock(path, None)`). -/
def commit (cfg : Config) (flock_ok : Bool) (client_ip repository : String)
    (session_token : Bytes) (mode commit_message : String) (now : Int)
    (st : RepoState) : Responce × RepoState :=
  match have_authenticated_user cfg client_ip repository session_token now st with
  | (none, st1) => (fail user_auth_fail_msg, st1)
  | (some current_user, st1) =>
    if flock_ok then
      if varify_user_lock st1.userFile now session_token then
        if st1.dataStore.have_active_commit then
          if mode == "commit" then
            let r := st1.dataStore.commit commit_message current_user.username
            (success [("head", r.1)] (Body.raw ""),
             { st1 with dataStore := r.2,
                        userFile := some (update_user_lock none now) })
          else
            (success [] (Body.raw ""),
             { st1 with dataStore := st1.dataStore.rollback,
                        userFile := some (update_user_lock none now) })
        else (fail no_active_commit_msg, st1)
      else (fail lock_fail_msg, st1)
    else (fail lock_fail_msg, st1)

/-! Concrete repository states used as inputs of counterexamples and
witnesses. -/

/-- One repository `repo1`; every user may use every repository. -/
def cfg0 : Config := ⟨["repo1"], fun _ _ => true⟩

/-- Head `r0`, one active staging, nothing staged yet. -/
def ds0 : DataStore := ⟨"r0", 0, [], [], true, [], []⟩

/-- A live session row for token `tok` (stored as BLOB) minted from ip1. -/
def row0 : SessionRow := ⟨1000, SQLVal.blob "tok", "ip1", "alice"⟩

/-- `row0` with its expiry refreshed at time 50. -/
def row7250 : SessionRow := ⟨7250, SQLVal.blob "tok", "ip1", "alice"⟩

/-- State with the user lock held by `tok` until time 100 and `row0` live. -/
def st0 : RepoState := ⟨ds0, some (UserFileContent.record ⟨"tok", 100⟩), [row0]⟩

/-- `st0` after `have_authenticated_user` at time 50 refreshed `row0`. -/
def st0gc : RepoState := ⟨ds0, some (UserFileContent.record ⟨"tok", 100⟩), [row7250]⟩

/-- State with no user lock file and `row0` live. -/
def stValid : RepoState := ⟨ds0, none, [row0]⟩

/-- `stValid` after `have_authenticated_user` at time 50 refreshed `row0`. -/
def stValidGc : RepoState := ⟨ds0, none, [row7250]⟩

/-- A session row for token `tok` that expired at time 10. -/
def rowExpired : SessionRow := ⟨10, SQLVal.blob "tok", "ip1", "alice"⟩

/-- A store with no revision ever committed: head is `root`. -/
def dsRoot : DataStore := ⟨"root", 0, [], [], false, [], []⟩

/-- State of a fresh repository (head `root`), `row0` live, no user lock. -/
def stRoot : RepoState := ⟨dsRoot, none, [row0]⟩

/-- `stRoot` after `have_authenticated_user` at time 50 refreshed `row0`. -/
def stRootGc : RepoState := ⟨dsRoot, none, [row7250]⟩

/-- A concrete instance of the abstract `fs_delete`: staging the deletion
of `bad` raises (None); any other path is recorded. -/
def fsDeleteW (ds : DataStore) (f : String) : Option DataStore :=
  if f == "bad" then none
  else some { ds with stagedDeletes := f :: ds.stagedDeletes }

/-- State whose user lock records `tok` (until 100) while the session row
of `tok` has already expired. -/
def stLockExpired : RepoState := ⟨ds0, some (UserFileContent.record ⟨"tok", 100⟩), [rowExpired]⟩

/-! Helper lemmas. -/

/-- `have_authenticated_user` touches only the `session_tokens` relation:
the user lock file and the versioned store are unchanged. -/
theorem have_authenticated_user_preserves (cfg : Config) (client_ip repository : String)
    (session_token : Bytes) (now : Int) (st : RepoState) :
    (have_authenticated_user cfg client_ip repository session_token now st).2.userFile = st.userFile ∧
    (have_authenticated_user cfg client_ip repository session_token now st).2.dataStore = st.dataStore := by
  simp only [have_authenticated_user]
  split
  · split
    · simp
    · split <;> simp
  · simp

/-- With an unknown repository name, `have_authenticated_user` returns
False without touching the state. -/
theorem have_authenticated_user_unknown_repo (cfg : Config) (client_ip repository : String)
    (session_token : Bytes) (now : Int) (st : RepoState)
    (hrepo : repository ∉ cfg.repositories) :
    have_authenticated_user cfg client_ip repository session_token now st = (none, st) := by
  unfold have_authenticated_user
  rw [if_neg hrepo]

/-- C1 (counterexample): at a concrete successful commit request with mode
`'commit'`, the response body is the empty byte string — not JSON — while
the new head revision id `rev1` appears only as the response header
`head`: `commit` passes `{'head': new_head}` as the HEADERS argument of
`success`, so the claim that the id is returned in the JSON response body
is false. -/
theorem commit_head_in_headers_not_body_cex :
    (commit cfg0 true "ip1" "repo1" ⟨"tok"⟩ "commit" "msg" 50 st0).1.body = Body.raw "" ∧
    (commit cfg0 true "ip1" "repo1" ⟨"tok"⟩ "commit" "msg" 50 st0).1.headers =
      [("status", "ok"), ("head", "rev1")] ∧
    (commit cfg0 true "ip1" "repo1" ⟨"tok"⟩ "commit" "msg" 50 st0).2.dataStore.head = "rev1" :=
  ⟨rfl, rfl, rfl⟩

/-- C1 (amended): for every commit request with mode header `'commit'`
that succeeds, the new head revision id is returned to the client in the
response header `head`, and the response body is empty. -/
theorem commit_returns_head_in_headers (cfg : Config) (flock_ok : Bool)
    (client_ip repository : String) (session_token : Bytes) (commit_message : String)
    (now : Int) (st : RepoState)
    (hok : (commit cfg flock_ok client_ip repository session_token "commit" commit_message now st).1.headers.lookup "status" = some "ok") :
    (commit cfg flock_ok client_ip repository session_token "commit" commit_message now st).1.headers.lookup "head" =
      some (commit cfg flock_ok client_ip repository session_token "commit" commit_message now st).2.dataStore.head ∧
    (commit cfg flock_ok client_ip repository session_token "commit" commit_message now st).1.body = Body.raw "" := by
  rcases h1 : have_authenticated_user cfg client_ip repository session_token now st with ⟨ou, st1⟩
  unfold commit at hok ⊢
  rw [h1] at hok ⊢
  cases ou with
  | none => simp [fail, List.lookup] at hok
  | some u =>
    cases flock_ok with
    | false => simp [fail, List.lookup] at hok
    | true =>
      dsimp only at hok ⊢
      cases hv : varify_user_lock st1.userFile now session_token with
      | false => simp [hv, fail, List.lookup] at hok
      | true =>
        cases ha : st1.dataStore.have_active_commit with
        | false => simp [hv, ha, fail, List.lookup] at hok
        | true => simp [success, List.lookup, DataStore.commit]

/-- C1 (witness): the amended theorem applied at the concrete request of
the counterexample. -/
theorem commit_returns_head_in_headers_witness :
    (commit cfg0 true "ip1" "repo1" ⟨"tok"⟩ "commit" "msg" 50 st0).1.headers.lookup "status" = some "ok" ∧
    ((commit cfg0 true "ip1" "repo1" ⟨"tok"⟩ "commit" "msg" 50 st0).1.headers.lookup "head" =
       some (commit cfg0 true "ip1" "repo1" ⟨"tok"⟩ "commit" "msg" 50 st0).2.dataStore.head ∧
     (commit cfg0 true "ip1" "repo1" ⟨"tok"⟩ "commit" "msg" 50 st0).1.body = Body.raw "") :=
  ⟨rfl, commit_returns_head_in_headers cfg0 true "ip1" "repo1" ⟨"tok"⟩ "msg" 50 st0 rfl⟩

/-- C2 (code evaluated at the failing input): the user lock is held by the
very session that is asking again (`varify_user_lock` accepts it), its
`expires` (100) has not passed (now = 50), and the recorded
`session_token` equals the requester's token — yet `can_aquire_user_lock`
answers `false`, because it compares the JSON `str` record field against
the `bytes` session token with Python `==`, which is always `False`
between those types; `begin_commit` therefore fails with
`'Could not acquire exclusive lock'`, contradicting the claim (and the
function's own docstring, which admits the returning original user). -/
theorem can_aquire_user_lock_same_session_denied :
    can_aquire_user_lock (some (UserFileContent.record ⟨"tok", 100⟩)) 50 ⟨"tok"⟩ = false ∧
    varify_user_lock (some (UserFileContent.record ⟨"tok", 100⟩)) 50 ⟨"tok"⟩ = true ∧
    (begin_commit cfg0 true "ip1" "repo1" ⟨"tok"⟩ "r0" 50 st0).1 = fail lock_fail_msg :=
  ⟨rfl, rfl, rfl⟩

/-- C7 (code evaluated at the failing input): the user lock records
session token `tok`, the `session_tokens` row of `tok` has expired
(expires = 10 < now = 50), and the claim says that row is excluded from
garbage collection — but the exclusion compares the BLOB-stored token
against the TEXT-bound `active_commit` string, which SQLite never equates,
so the lock holder's row is deleted and the request is refused. -/
theorem gc_deletes_lock_holder_token :
    read_user_lock stLockExpired.userFile = some ⟨"tok", 100⟩ ∧
    rowExpired ∈ stLockExpired.sessionTokens ∧
    (have_authenticated_user cfg0 "ip1" "repo1" ⟨"tok"⟩ 50 stLockExpired).2.sessionTokens = [] ∧
    (have_authenticated_user cfg0 "ip1" "repo1" ⟨"tok"⟩ 50 stLockExpired).1 = none :=
  ⟨rfl, List.mem_cons_self _ _, rfl, rfl⟩

/-- C3 (counterexample): a `find_changed` request naming an unknown
repository fails with `'Could not authenticate user'`, not
`'The requested repository does not exist'` — the unknown-repo case is
detected inside `have_authenticated_user`, which returns False, and the
handler reports the auth-failure message.  The presented session is
otherwise perfectly valid (first conjunct). -/
theorem find_changed_unknown_repo_msg_cex :
    (have_authenticated_user cfg0 "ip1" "repo1" ⟨"tok"⟩ 50 stValid).1 = some row0 ∧
    (find_changed (fun _ _ _ => fail "") cfg0 "ip1" "nosuch" ⟨"tok"⟩ "r0" ⟨"{}", "[]"⟩ 50 stValid).1 =
      fail user_auth_fail_msg ∧
    user_auth_fail_msg ≠ no_such_repo_msg :=
  ⟨rfl, rfl, by decide⟩

/-- C3 (amended): a request naming an unknown repository is rejected by
every endpoint before any other precondition — in particular before
session validation, whatever the session state — and the state is left
untouched; but only `begin_auth` and `authenticate` answer with
`'The requested repository does not exist'`, while every authenticated
endpoint answers with `'Could not authenticate user'`. -/
theorem unknown_repo_rejected_first
    (cfg : Config) (repository : String)
    (newSession : RepoState → Responce × RepoState)
    (nonRoot : FindChangedBody → String → DataStore → Responce)
    (serveP : String → DataStore → Responce) (serveV : DataStore → Responce)
    (serveC serveF : String → DataStore → Responce)
    (fs_delete : DataStore → String → Option DataStore)
    (flock_ok : Bool)
    (client_ip auth_token path version_id previous_revision mode commit_message : String)
    (session_token : Bytes) (session_token_hdr : Option String) (files : List String)
    (body : FindChangedBody) (now : Int) (st : RepoState)
    (hrepo : repository ∉ cfg.repositories) :
    begin_auth cfg repository auth_token st = (fail no_such_repo_msg, st) ∧
    authenticate newSession cfg client_ip repository session_token_hdr now st =
      (fail no_such_repo_msg, st) ∧
    find_changed nonRoot cfg client_ip repository session_token previous_revision body now st =
      (fail user_auth_fail_msg, st) ∧
    pull_file serveP cfg client_ip repository session_token path now st =
      (fail user_auth_fail_msg, st) ∧
    list_versions serveV cfg client_ip repository session_token now st =
      (fail user_auth_fail_msg, st) ∧
    list_changes serveC cfg client_ip repository session_token version_id now st =
      (fail user_auth_fail_msg, st) ∧
    list_files serveF cfg client_ip repository session_token version_id now st =
      (fail user_auth_fail_msg, st) ∧
    begin_commit cfg flock_ok client_ip repository session_token previous_revision now st =
      (fail user_auth_fail_msg, st) ∧
    push_file cfg flock_ok client_ip repository session_token path now st =
      (fail user_auth_fail_msg, st) ∧
    delete_files fs_delete cfg flock_ok client_ip repository session_token files now st =
      (fail user_auth_fail_msg, st) ∧
    commit cfg flock_ok client_ip repository session_token mode commit_message now st =
      (fail user_auth_fail_msg, st) := by
  have h := have_authenticated_user_unknown_repo cfg client_ip repository session_token now st hrepo
  refine ⟨?_, ?_, ?_, ?_, ?_, ?_, ?_, ?_, ?_, ?_, ?_⟩ <;>
    simp [begin_auth, authenticate, find_changed, pull_file, list_versions, list_changes,
          list_files, begin_commit, push_file, delete_files, commit, h, hrepo]

/-- C3 (witness): the amended theorem applied at a concrete request
against the unknown repository `nosuch`. -/
theorem unknown_repo_rejected_first_witness :
    ("nosuch" ∉ cfg0.repositories) ∧
    (begin_auth cfg0 "nosuch" "atok" stValid = (fail no_such_repo_msg, stValid) ∧
     authenticate (fun s => (fail "", s)) cfg0 "ip1" "nosuch" (some "tok") 50 stValid =
       (fail no_such_repo_msg, stValid) ∧
     find_changed (fun _ _ _ => fail "") cfg0 "ip1" "nosuch" ⟨"tok"⟩ "r0" ⟨"{}", "[]"⟩ 50 stValid =
       (fail user_auth_fail_msg, stValid) ∧
     pull_file (fun _ _ => fail "") cfg0 "ip1" "nosuch" ⟨"tok"⟩ "/p" 50 stValid =
       (fail user_auth_fail_msg, stValid) ∧
     list_versions (fun _ => fail "") cfg0 "ip1" "nosuch" ⟨"tok"⟩ 50 stValid =
       (fail user_auth_fail_msg, stValid) ∧
     list_changes (fun _ _ => fail "") cfg0 "ip1" "nosuch" ⟨"tok"⟩ "v1" 50 stValid =
       (fail user_auth_fail_msg, stValid) ∧
     list_files (fun _ _ => fail "") cfg0 "ip1" "nosuch" ⟨"tok"⟩ "v1" 50 stValid =
       (fail user_auth_fail_msg, stValid) ∧
     begin_commit cfg0 true "ip1" "nosuch" ⟨"tok"⟩ "r0" 50 stValid =
       (fail user_auth_fail_msg, stValid) ∧
     push_file cfg0 true "ip1" "nosuch" ⟨"tok"⟩ "/p" 50 stValid =
       (fail user_auth_fail_msg, stValid) ∧
     delete_files (fun ds _ => some ds) cfg0 true "ip1" "nosuch" ⟨"tok"⟩ ["/p"] 50 stValid =
       (fail user_auth_fail_msg, stValid) ∧
     commit cfg0 true "ip1" "nosuch" ⟨"tok"⟩ "commit" "m" 50 stValid =
       (fail user_auth_fail_msg, stValid)) :=
  ⟨by decide,
   unknown_repo_rejected_first cfg0 "nosuch" (fun s => (fail "", s)) (fun _ _ _ => fail "")
     (fun _ _ => fail "") (fun _ => fail "") (fun _ _ => fail "") (fun _ _ => fail "")
     (fun ds _ => some ds) true "ip1" "atok" "/p" "v1" "r0" "commit" "m" ⟨"tok"⟩ (some "tok")
     ["/p"] ⟨"{}", "[]"⟩ 50 stValid (by decide)⟩

/-- C4: under the process flock, for an authenticated session,
`begin_commit` checks its preconditions in order: an unacquirable user
lock fails with the lock message; otherwise a `previous_revision` header
differing from the current head fails with
`'Please update to latest revision'`; otherwise a dangling active staging
is rolled back implicitly, a fresh staging area is begun, and the user
lock is written for this session (expiry now + 30) before success. -/
theorem begin_commit_precondition_order (cfg : Config) (client_ip repository : String)
    (session_token : Bytes) (previous_revision : String) (now : Int) (st st1 : RepoState)
    (u : SessionRow)
    (hauth : have_authenticated_user cfg client_ip repository session_token now st = (some u, st1)) :
    (can_aquire_user_lock st1.userFile now session_token = false →
      begin_commit cfg true client_ip repository session_token previous_revision now st =
        (fail lock_fail_msg, st1)) ∧
    (can_aquire_user_lock st1.userFile now session_token = true →
     st1.dataStore.head ≠ previous_revision →
      begin_commit cfg true client_ip repository session_token previous_revision now st =
        (fail need_to_update_msg, st1)) ∧
    (can_aquire_user_lock st1.userFile now session_token = true →
     st1.dataStore.head = previous_revision →
      begin_commit cfg true client_ip repository session_token previous_revision now st =
        (success [] (Body.raw ""),
         { st1 with
             dataStore :=
               (if st1.dataStore.have_active_commit then st1.dataStore.rollback
                else st1.dataStore).begin,
             userFile := some (UserFileContent.record ⟨session_token.data, now + 30⟩) })) := by
  unfold begin_commit
  rw [hauth]
  dsimp only
  refine ⟨fun hc => ?_, fun hc hne => ?_, fun hc he => ?_⟩
  · simp [hc]
  · simp [hc, DataStore.get_head, hne]
  · simp [hc, DataStore.get_head, he, update_user_lock, Bytes.decodeUtf8]

/-- C4 (witness): the theorem applied at a concrete authenticated request
whose user lock is acquirable (no lock file) and whose
`previous_revision` matches the head, so a fresh staging is begun. -/
theorem begin_commit_precondition_order_witness :
    have_authenticated_user cfg0 "ip1" "repo1" ⟨"tok"⟩ 50 stValid = (some row0, stValidGc) ∧
    ((can_aquire_user_lock stValidGc.userFile 50 ⟨"tok"⟩ = false →
       begin_commit cfg0 true "ip1" "repo1" ⟨"tok"⟩ "r0" 50 stValid =
         (fail lock_fail_msg, stValidGc)) ∧
     (can_aquire_user_lock stValidGc.userFile 50 ⟨"tok"⟩ = true →
      stValidGc.dataStore.head ≠ "r0" →
       begin_commit cfg0 true "ip1" "repo1" ⟨"tok"⟩ "r0" 50 stValid =
         (fail need_to_update_msg, stValidGc)) ∧
     (can_aquire_user_lock stValidGc.userFile 50 ⟨"tok"⟩ = true →
      stValidGc.dataStore.head = "r0" →
       begin_commit cfg0 true "ip1" "repo1" ⟨"tok"⟩ "r0" 50 stValid =
         (success [] (Body.raw ""),
          { stValidGc with
              dataStore :=
                (if stValidGc.dataStore.have_active_commit then stValidGc.dataStore.rollback
                 else stValidGc.dataStore).begin,
              userFile := some (UserFileContent.record ⟨"tok", 80⟩) }))) :=
  ⟨rfl, begin_commit_precondition_order cfg0 "ip1" "repo1" ⟨"tok"⟩ "r0" 50 stValid stValidGc row0 rfl⟩

/-- C5: in the `commit` endpoint, when staging is active and the user lock
is held by the requester (under the flock), a mode header `'commit'`
commits the staged changes and any other mode rolls them back; in both
cases the user lock is cleared — `update_user_lock(path, None)` atomically
writes an empty `user_file` — before the response is returned. -/
theorem commit_modes_and_lock_release (cfg : Config) (client_ip repository : String)
    (session_token : Bytes) (mode commit_message : String) (now : Int) (st st1 : RepoState)
    (u : SessionRow)
    (hauth : have_authenticated_user cfg client_ip repository session_token now st = (some u, st1))
    (hlock : varify_user_lock st1.userFile now session_token = true)
    (hactive : st1.dataStore.have_active_commit = true) :
    (mode = "commit" →
      commit cfg true client_ip repository session_token mode commit_message now st =
        (success [("head", (st1.dataStore.commit commit_message u.username).1)] (Body.raw ""),
         { st1 with dataStore := (st1.dataStore.commit commit_message u.username).2,
                    userFile := some UserFileContent.empty })) ∧
    (mode ≠ "commit" →
      commit cfg true client_ip repository session_token mode commit_message now st =
        (success [] (Body.raw ""),
         { st1 with dataStore := st1.dataStore.rollback,
                    userFile := some UserFileContent.empty })) := by
  unfold commit
  rw [hauth]
  dsimp only
  constructor
  · intro hm; simp [hlock, hactive, hm, update_user_lock]
  · intro hm; simp [hlock, hactive, hm, update_user_lock]

/-- C5 (witness): the theorem applied at a concrete request holding the
user lock with an active staging. -/
theorem commit_modes_and_lock_release_witness :
    have_authenticated_user cfg0 "ip1" "repo1" ⟨"tok"⟩ 50 st0 = (some row0, st0gc) ∧
    varify_user_lock st0gc.userFile 50 ⟨"tok"⟩ = true ∧
    st0gc.dataStore.have_active_commit = true ∧
    (("commit" : String) = "commit" →
      commit cfg0 true "ip1" "repo1" ⟨"tok"⟩ "commit" "m" 50 st0 =
        (success [("head", (st0gc.dataStore.commit "m" row0.username).1)] (Body.raw ""),
         { st0gc with dataStore := (st0gc.dataStore.commit "m" row0.username).2,
                      userFile := some UserFileContent.empty })) :=
  ⟨rfl, rfl, rfl,
   (commit_modes_and_lock_release cfg0 "ip1" "repo1" ⟨"tok"⟩ "commit" "m" 50 st0 st0gc row0
      rfl rfl rfl).1⟩

/-- Rows surviving the `session_tokens` GC come from the original table. -/
theorem mem_of_mem_gcSessionTokens {row : SessionRow} {table : List SessionRow}
    {now : Int} {ac : Option String} (h : row ∈ gcSessionTokens table now ac) :
    row ∈ table := by
  cases ac <;> exact List.mem_of_mem_filter h

/-- A batch of staged deletions that all succeed, followed by more files,
runs the remaining files from the state the batch reached. -/
theorem stageDeletes_append (fs_delete : DataStore → String → Option DataStore)
    (fs1 : List String) (ds ds1 : DataStore) (rest : List String)
    (h : stageDeletes fs_delete ds fs1 = (ds1, true)) :
    stageDeletes fs_delete ds (fs1 ++ rest) = stageDeletes fs_delete ds1 rest := by
  induction fs1 generalizing ds with
  | nil =>
    simp [stageDeletes] at h
    rw [List.nil_append, h]
  | cons a as ih =>
    simp only [List.cons_append, stageDeletes] at h ⊢
    cases hfd : fs_delete ds a with
    | none => rw [hfd] at h; simp at h
    | some ds2 => rw [hfd] at h; exact ih ds2 h

/-- C6: a `push_file` request whose path has a `.` or `..` segment
(splitting on forward or back slashes) never changes the versioned store
or the user lock — no content is stored and nothing can reach a manifest —
and when the request passes authentication, the flock, the user-lock check
and the active-staging check, it is answered with a fail response whose
`msg` is the empty string. -/
theorem push_file_rejects_traversal (cfg : Config) (flock_ok : Bool)
    (client_ip repository : String) (session_token : Bytes) (path : String)
    (now : Int) (st : RepoState)
    (hpath : hasTraversal path = true) :
    (push_file cfg flock_ok client_ip repository session_token path now st).2.dataStore =
      st.dataStore ∧
    (push_file cfg flock_ok client_ip repository session_token path now st).2.userFile =
      st.userFile ∧
    (∀ u st1,
      have_authenticated_user cfg client_ip repository session_token now st = (some u, st1) →
      flock_ok = true →
      varify_user_lock st1.userFile now session_token = true →
      st1.dataStore.have_active_commit = true →
      push_file cfg flock_ok client_ip repository session_token path now st =
        (fail "", st1)) := by
  have hpres := have_authenticated_user_preserves cfg client_ip repository session_token now st
  rcases h1 : have_authenticated_user cfg client_ip repository session_token now st with ⟨ou, st1⟩
  rw [h1] at hpres
  dsimp only at hpres
  unfold push_file
  rw [h1]
  cases ou with
  | none =>
    refine ⟨hpres.2, hpres.1, fun u st1' heq => ?_⟩
    simp at heq
  | some u =>
    dsimp only
    refine ⟨?_, ?_, fun u' st1' heq hf hv ha => ?_⟩
    · split_ifs <;> simp_all [hpres.2]
    · split_ifs <;> simp_all [hpres.1]
    · obtain ⟨hu, hst⟩ : u = u' ∧ st1 = st1' := by simpa using heq
      subst hu hst hf
      simp [hv, ha, hpath]

/-- C6 (witness): the theorem applied to a concrete request pushing the
path `/a/../b` under a held lock and active staging. -/
theorem push_file_rejects_traversal_witness :
    hasTraversal "/a/../b" = true ∧
    ((push_file cfg0 true "ip1" "repo1" ⟨"tok"⟩ "/a/../b" 50 st0).2.dataStore = st0.dataStore ∧
     (push_file cfg0 true "ip1" "repo1" ⟨"tok"⟩ "/a/../b" 50 st0).2.userFile = st0.userFile ∧
     (∀ u st1,
       have_authenticated_user cfg0 "ip1" "repo1" ⟨"tok"⟩ 50 st0 = (some u, st1) →
       true = true →
       varify_user_lock st1.userFile 50 ⟨"tok"⟩ = true →
       st1.dataStore.have_active_commit = true →
       push_file cfg0 true "ip1" "repo1" ⟨"tok"⟩ "/a/../b" 50 st0 = (fail "", st1))) :=
  ⟨rfl, push_file_rejects_traversal cfg0 true "ip1" "repo1" ⟨"tok"⟩ "/a/../b" 50 st0 rfl⟩

/-- C8: a session token is bound to the IP that minted it.  If every
stored row of a token records the minting IP, then a request presenting
that token from any other IP is refused — by the resume branch of
`authenticate` (fail with the auth message) and by the per-request check
`have_authenticated_user` (False) — while the per-request check from the
minting IP accepts a live, authorized token. -/
theorem session_token_ip_binding (cfg : Config) (repository token mint_ip other_ip : String)
    (now : Int) (st : RepoState)
    (hrepo : repository ∈ cfg.repositories)
    (hmint : ∀ row ∈ st.sessionTokens,
      (sqlEq row.token (SQLVal.blob token) = true ∨ sqlEq row.token (SQLVal.text token) = true) →
      row.ip = mint_ip)
    (hperm : ∀ row ∈ st.sessionTokens, sqlEq row.token (SQLVal.blob token) = true →
      cfg.usesRepositories row.username repository = true)
    (hlive : ∃ row ∈ st.sessionTokens,
      sqlEq row.token (SQLVal.blob token) = true ∧ ¬(row.expires < now))
    (hother : other_ip ≠ mint_ip) :
    (authenticate_resume cfg other_ip repository token now st).1 = fail user_auth_fail_msg ∧
    (have_authenticated_user cfg other_ip repository ⟨token⟩ now st).1 = none ∧
    (have_authenticated_user cfg mint_ip repository ⟨token⟩ now st).1.isSome = true := by
  refine ⟨?_, ?_, ?_⟩
  · unfold authenticate_resume
    rw [if_pos hrepo]
    have hres : (st.sessionTokens.filter (fun row => !(decide (row.expires < now)))).filter
        (fun row => sqlEq row.token (SQLVal.text token) && row.ip == other_ip) = [] := by
      rw [List.filter_eq_nil_iff]
      intro row hrow
      have hmem := List.mem_of_mem_filter hrow
      simp only [Bool.and_eq_true, beq_iff_eq, not_and]
      intro hsql hip
      exact hother (hip ▸ hmint row hmem (Or.inr hsql))
    dsimp only
    rw [hres]
    rfl
  · unfold have_authenticated_user
    rw [if_pos hrepo]
    have hres : (gcSessionTokens st.sessionTokens now
        ((read_user_lock st.userFile).map (fun r => r.session_token))).filter
        (fun row => sqlEq row.token (SQLVal.blob token) && row.ip == other_ip) = [] := by
      rw [List.filter_eq_nil_iff]
      intro row hrow
      have hmem := mem_of_mem_gcSessionTokens hrow
      simp only [Bool.and_eq_true, beq_iff_eq, not_and]
      intro hsql hip
      exact hother (hip ▸ hmint row hmem (Or.inl hsql))
    dsimp only
    rw [hres]
  · unfold have_authenticated_user
    rw [if_pos hrepo]
    dsimp only
    obtain ⟨row, hmem, hsql, hexp⟩ := hlive
    have hgc : row ∈ gcSessionTokens st.sessionTokens now
        ((read_user_lock st.userFile).map (fun r => r.session_token)) := by
      unfold gcSessionTokens
      cases (read_user_lock st.userFile).map (fun r => r.session_token) with
      | none => exact List.mem_filter.mpr ⟨hmem, by simp [hexp]⟩
      | some t => exact List.mem_filter.mpr ⟨hmem, by simp [hexp]⟩
    have hrowmem : row ∈ (gcSessionTokens st.sessionTokens now
        ((read_user_lock st.userFile).map (fun r => r.session_token))).filter
        (fun row => sqlEq row.token (SQLVal.blob token) && row.ip == mint_ip) := by
      refine List.mem_filter.mpr ⟨hgc, ?_⟩
      have hip : row.ip = mint_ip := hmint row hmem (Or.inl hsql)
      simp [hsql, hip]
    rcases hres : (gcSessionTokens st.sessionTokens now
        ((read_user_lock st.userFile).map (fun r => r.session_token))).filter
        (fun row => sqlEq row.token (SQLVal.blob token) && row.ip == mint_ip) with _ | ⟨r0, tl⟩
    · rw [hres] at hrowmem; cases hrowmem
    · have hr0 : r0 ∈ (gcSessionTokens st.sessionTokens now
          ((read_user_lock st.userFile).map (fun r => r.session_token))).filter
          (fun row => sqlEq row.token (SQLVal.blob token) && row.ip == mint_ip) := by
        rw [hres]; exact List.mem_cons_self _ _
      obtain ⟨hr0gc, hr0p⟩ := List.mem_filter.mp hr0
      simp only [Bool.and_eq_true] at hr0p
      have hr0sql : sqlEq r0.token (SQLVal.blob token) = true := hr0p.1
      have hr0perm : cfg.usesRepositories r0.username repository = true :=
        hperm r0 (mem_of_mem_gcSessionTokens hr0gc) hr0sql
      rw [hres]
      simp [hr0perm]

/-- C8 (witness): the theorem applied to the concrete token `tok` minted
from `ip1`, presented from `ip2` and from `ip1`. -/
theorem session_token_ip_binding_witness :
    ("repo1" ∈ cfg0.repositories) ∧
    ("ip2" ≠ "ip1") ∧
    ((authenticate_resume cfg0 "ip2" "repo1" "tok" 50 stValid).1 = fail user_auth_fail_msg ∧
     (have_authenticated_user cfg0 "ip2" "repo1" ⟨"tok"⟩ 50 stValid).1 = none ∧
     (have_authenticated_user cfg0 "ip1" "repo1" ⟨"tok"⟩ 50 stValid).1.isSome = true) :=
  ⟨by decide, by decide,
   session_token_ip_binding cfg0 "repo1" "tok" "ip1" "ip2" 50 stValid (by decide)
     (by intro row hrow h
         rcases List.mem_singleton.mp hrow with rfl
         rfl)
     (by intro row hrow h; rfl)
     ⟨row0, List.mem_cons_self _ _, rfl, by decide⟩
     (by decide)⟩

/-- C9: an authenticated `find_changed` request against a repository whose
head is `root` (no revision ever committed) is answered with success and
the JSON body `{'head': 'root', 'sorted_changes': {'none': []}}`, whatever
the supplied `client_changes` and `conflict_resolutions` (the body is
never consulted: the result is the same for every request body and every
behaviour of the non-root branch). -/
theorem find_changed_root_head (nonRoot : FindChangedBody → String → DataStore → Responce)
    (cfg : Config) (client_ip repository : String) (session_token : Bytes)
    (previous_revision : String) (body : FindChangedBody) (now : Int)
    (st st1 : RepoState) (u : SessionRow)
    (hauth : have_authenticated_user cfg client_ip repository session_token now st = (some u, st1))
    (hroot : st.dataStore.head = "root") :
    find_changed nonRoot cfg client_ip repository session_token previous_revision body now st =
      (success [] (Body.jsonObj
        [("head", JVal.str "root"),
         ("sorted_changes", JVal.obj [("none", JVal.arr [])])]), st1) := by
  have hpres := have_authenticated_user_preserves cfg client_ip repository session_token now st
  rw [hauth] at hpres
  dsimp only at hpres
  unfold find_changed
  rw [hauth]
  dsimp only
  simp [DataStore.get_head, hpres.2, hroot]

/-- C9 (witness): the theorem applied to a concrete fresh repository. -/
theorem find_changed_root_head_witness :
    have_authenticated_user cfg0 "ip1" "repo1" ⟨"tok"⟩ 50 stRoot = (some row0, stRootGc) ∧
    stRoot.dataStore.head = "root" ∧
    find_changed (fun _ _ _ => fail "") cfg0 "ip1" "repo1" ⟨"tok"⟩ "r0" ⟨"{}", "[]"⟩ 50 stRoot =
      (success [] (Body.jsonObj
        [("head", JVal.str "root"),
         ("sorted_changes", JVal.obj [("none", JVal.arr [])])]), stRootGc) :=
  ⟨rfl, rfl,
   find_changed_root_head (fun _ _ _ => fail "") cfg0 "ip1" "repo1" ⟨"tok"⟩ "r0" ⟨"{}", "[]"⟩
     50 stRoot stRootGc row0 rfl rfl⟩

/-- C10: `delete_files` is not atomic over its batch: when staging the
deletion of `f` raises after the prefix `fs1` was staged successfully, the
endpoint answers `fail('')`, the deletions of `fs1` remain staged in the
store, and the user lock file — hence its expiry — is untouched. -/
theorem delete_files_partial_failure (fs_delete : DataStore → String → Option DataStore)
    (cfg : Config) (client_ip repository : String) (session_token : Bytes)
    (fs1 : List String) (f : String) (fs2 : List String) (now : Int)
    (st st1 : RepoState) (u : SessionRow) (ds1 : DataStore)
    (hauth : have_authenticated_user cfg client_ip repository session_token now st = (some u, st1))
    (hlock : varify_user_lock st1.userFile now session_token = true)
    (hactive : st1.dataStore.have_active_commit = true)
    (hpre : stageDeletes fs_delete st1.dataStore fs1 = (ds1, true))
    (hfail : fs_delete ds1 f = none) :
    delete_files fs_delete cfg true client_ip repository session_token (fs1 ++ f :: fs2) now st =
      (fail "", { st1 with dataStore := ds1 }) ∧
    ({ st1 with dataStore := ds1 } : RepoState).userFile = st.userFile := by
  have hpres := have_authenticated_user_preserves cfg client_ip repository session_token now st
  rw [hauth] at hpres
  dsimp only at hpres
  constructor
  · unfold delete_files
    rw [hauth]
    dsimp only
    rw [stageDeletes_append fs_delete fs1 st1.dataStore ds1 (f :: fs2) hpre]
    unfold stageDeletes
    rw [hfail]
    simp [hlock, hactive]
  · exact hpres.1

/-- C10 (witness): the theorem applied to the concrete batch
`["a", "bad", "c"]` where staging the deletion of `bad` raises: `a` stays
staged, the lock file is untouched, the response is `fail('')`. -/
theorem delete_files_partial_failure_witness :
    have_authenticated_user cfg0 "ip1" "repo1" ⟨"tok"⟩ 50 st0 = (some row0, st0gc) ∧
    varify_user_lock st0gc.userFile 50 ⟨"tok"⟩ = true ∧
    st0gc.dataStore.have_active_commit = true ∧
    stageDeletes fsDeleteW st0gc.dataStore ["a"] =
      ({ ds0 with stagedDeletes := ["a"] }, true) ∧
    fsDeleteW { ds0 with stagedDeletes := ["a"] } "bad" = none ∧
    (delete_files fsDeleteW cfg0 true "ip1" "repo1" ⟨"tok"⟩ ["a", "bad", "c"] 50 st0 =
       (fail "", { st0gc with dataStore := { ds0 with stagedDeletes := ["a"] } }) ∧
     ({ st0gc with dataStore := { ds0 with stagedDeletes := ["a"] } } : RepoState).userFile =
       st0.userFile) :=
  ⟨rfl, rfl, rfl, rfl, rfl,
   delete_files_partial_failure fsDeleteW cfg0 "ip1" "repo1" ⟨"tok"⟩ ["a"] "bad" ["c"] 50 st0
     st0gc row0 { ds0 with stagedDeletes := ["a"] } rfl rfl rfl rfl rfl⟩

end Shttpfs
